import Mathlib

/-!
Shallow embedding of `ext/node/ops/crypto/digest.rs`: the streaming-hash
dispatch and lifecycle layer (algorithm registry + digest engine).

The external hash primitives (RustCrypto `digest` crates, `ring`, and the
repo's `md5_sha1.rs` / `ring_sha2.rs` which are not part of the sources
given) are opaque correct primitives per the spec; they are modelled below
as deterministic functions of the full input byte sequence producing
exactly `output_size` bytes.
-/

namespace DigestRs

/-- The concrete digest primitives selected by the alias tables
(`blake2`, `sm3`, `md4`, `md5_sha1`, `md5`, `ripemd`, `sha1`, `sha2`,
`sha3` crates). -/
inductive Primitive where
  | blake2b512
  | blake2s256
  | sm3
  | md4
  | md5sha1
  | md5
  | ripemd160
  | sha1
  | sha224
  | sha256
  | sha384
  | sha512
  | sha512t224
  | sha512t256
  | sha3x224
  | sha3x256
  | sha3x384
  | sha3x512
  deriving DecidableEq, Repr

/-- Modelled from the spec: output sizes of the external fixed digest
primitives (`output_size()` of each crate's digest type). The crates are
outside the given sources; the sizes follow the spec's canonical size
table (`Hash::get_size`), including md5-sha1 -> 20. -/
def Primitive.output_size : Primitive → Nat
  | .blake2b512 => 64
  | .blake2s256 => 32
  | .sm3 => 32
  | .md4 => 16
  | .md5sha1 => 20
  | .md5 => 16
  | .ripemd160 => 20
  | .sha1 => 20
  | .sha224 => 28
  | .sha256 => 32
  | .sha384 => 48
  | .sha512 => 64
  | .sha512t224 => 28
  | .sha512t256 => 32
  | .sha3x224 => 28
  | .sha3x256 => 32
  | .sha3x384 => 48
  | .sha3x512 => 64

/-- A per-primitive seed so distinct primitives give distinct modelled
digests. -/
def Primitive.seed : Primitive → Nat
  | .blake2b512 => 1
  | .blake2s256 => 2
  | .sm3 => 3
  | .md4 => 4
  | .md5sha1 => 5
  | .md5 => 6
  | .ripemd160 => 7
  | .sha1 => 8
  | .sha224 => 9
  | .sha256 => 10
  | .sha384 => 11
  | .sha512 => 12
  | .sha512t224 => 13
  | .sha512t256 => 14
  | .sha3x224 => 15
  | .sha3x256 => 16
  | .sha3x384 => 17
  | .sha3x512 => 18

/-- Modelled from the spec: the accumulated state of an opaque streaming
digest is a deterministic function of the full byte sequence fed so far;
this folds it into one number. -/
def primMix (seed : Nat) (data : List Nat) : Nat :=
  data.foldl (fun a b => (a * 257 + b + 1) % 1000003) (seed + 1)

/-- Modelled from the spec: finalizing a fixed digest primitive yields
exactly `output_size` bytes, deterministically from the input sequence. -/
def Primitive.digest (p : Primitive) (data : List Nat) : List Nat :=
  (List.range p.output_size).map (fun i => (primMix p.seed data + i * 31) % 256)

/-- Modelled from the spec: extendable output of SHAKE128/SHAKE256 — the
caller chooses the byte count at finalize time; prefix-closed by
construction. -/
def shakeBytes (seed : Nat) (data : List Nat) (n : Nat) : List Nat :=
  (List.range n).map (fun i => (primMix seed data + i * 31) % 256)

/-- A digest provider: either a generic RustCrypto crate digest
(`match_fixed_digest` chain) or one of the two ring-backed providers of
`ring_sha2.rs`. -/
inductive Provider where
  | generic (p : Primitive)
  | ringSha256
  | ringSha512
  deriving DecidableEq, Repr

/-- Modelled from the spec: `ring_sha2.rs` is not among the given sources;
the spec states the ring-backed providers are a performance optimization
whose output bytes are identical to the standard SHA-256 / SHA-512
definition, so each ring provider computes the same function as the
corresponding generic primitive. -/
def Provider.primitive : Provider → Primitive
  | .generic p => p
  | .ringSha256 => .sha256
  | .ringSha512 => .sha512

/-- Embeds `output_size()` of a provider (`DynDigest::output_size`,
`RingSha256::output_size`, `RingSha512::output_size`). -/
def Provider.output_size (pr : Provider) : Nat :=
  pr.primitive.output_size

/-- Embeds `finalize()` of a provider. -/
def Provider.finalize (pr : Provider) (data : List Nat) : List Nat :=
  pr.primitive.digest data

/-- Embeds `enum Hash` from digest.rs: a fixed-size boxed digest, or a SHAKE
context paired with the stored optional output length. The opaque digest
context is represented by the byte sequence fed so far. -/
inductive Hash where
  | FixedSize (pr : Provider) (data : List Nat)
  | Shake128 (data : List Nat) (output_length : Option Nat)
  | Shake256 (data : List Nat) (output_length : Option Nat)
  deriving DecidableEq, Repr

/-- Embeds `enum HashError` from digest.rs. -/
inductive HashError where
  | OutputLengthMismatch
  | DigestMethodUnsupported (name : String)
  deriving DecidableEq, Repr

/-- Result of the name dispatch in `Hash::new`: the two XOF arms, the
fixed-digest arms (special-cased ring providers first, then the
`match_fixed_digest!` macro chain), or fall-through. -/
inductive Resolved where
  | shake128
  | shake256
  | fixed (pr : Provider)
  | unknown
  deriving DecidableEq, Repr

/-- The name dispatch of `Hash::new`, transcribing every match arm in
source order: the explicit `shake128`/`shake-128`, `shake256`/`shake-256`,
`sha256` (ring), `sha512` (ring) arms, then the `match_fixed_digest!`
macro chain (blake2 arms, then `match_fixed_digest_with_eager_block_buffer!`
arms sm3/md4/md5-sha1, then every `match_fixed_digest_with_oid!` arm). -/
def resolveName (name : String) : Resolved :=
  match name with
  | "shake128" | "shake-128" => .shake128
  | "shake256" | "shake-256" => .shake256
  | "sha256" => .fixed .ringSha256
  | "sha512" => .fixed .ringSha512
  | "blake2b512" => .fixed (.generic .blake2b512)
  | "blake2s256" => .fixed (.generic .blake2s256)
  | "rsa-sm3" | "sm3" | "sm3withrsaencryption" => .fixed (.generic .sm3)
  | "rsa-md4" | "md4" | "md4withrsaencryption" => .fixed (.generic .md4)
  | "md5-sha1" => .fixed (.generic .md5sha1)
  | "rsa-md5" | "md5" | "md5withrsaencryption" | "ssl3-md5" =>
    .fixed (.generic .md5)
  | "rsa-ripemd160" | "ripemd" | "ripemd160" | "ripemd160withrsa"
  | "rmd160" => .fixed (.generic .ripemd160)
  | "rsa-sha1" | "rsa-sha1-2" | "sha1" | "sha1-2" | "sha1withrsaencryption"
  | "ssl3-sha1" => .fixed (.generic .sha1)
  | "rsa-sha224" | "sha224" | "sha224withrsaencryption" =>
    .fixed (.generic .sha224)
  | "rsa-sha256" | "sha256withrsaencryption" => .fixed (.generic .sha256)
  | "rsa-sha384" | "sha384" | "sha384withrsaencryption" =>
    .fixed (.generic .sha384)
  | "rsa-sha512" | "sha512withrsaencryption" => .fixed (.generic .sha512)
  | "rsa-sha512/224" | "sha512-224" | "sha512-224withrsaencryption" =>
    .fixed (.generic .sha512t224)
  | "rsa-sha512/256" | "sha512-256" | "sha512-256withrsaencryption" =>
    .fixed (.generic .sha512t256)
  | "rsa-sha3-224" | "id-rsassa-pkcs1-v1_5-with-sha3-224" | "sha3-224" =>
    .fixed (.generic .sha3x224)
  | "rsa-sha3-256" | "id-rsassa-pkcs1-v1_5-with-sha3-256" | "sha3-256" =>
    .fixed (.generic .sha3x256)
  | "rsa-sha3-384" | "id-rsassa-pkcs1-v1_5-with-sha3-384" | "sha3-384" =>
    .fixed (.generic .sha3x384)
  | "rsa-sha3-512" | "id-rsassa-pkcs1-v1_5-with-sha3-512" | "sha3-512" =>
    .fixed (.generic .sha3x512)
  | _ => .unknown

/-- The shared fixed-arm body of `Hash::new`: construct the digest, and if
an output length was requested, reject it unless it equals the digest's
`output_size()`. -/
def checkFixed (pr : Provider) (output_length : Option Nat) :
    Except HashError Hash :=
  match output_length with
  | some length =>
    if length = pr.output_size then .ok (.FixedSize pr [])
    else .error .OutputLengthMismatch
  | none => .ok (.FixedSize pr [])

/-- Embeds `Hash::new(algorithm_name, output_length)`. -/
def Hash.new (algorithm_name : String) (output_length : Option Nat) :
    Except HashError Hash :=
  match resolveName algorithm_name with
  | .shake128 => .ok (.Shake128 [] output_length)
  | .shake256 => .ok (.Shake256 [] output_length)
  | .fixed pr => checkFixed pr output_length
  | .unknown => .error (.DigestMethodUnsupported algorithm_name)

/-- Embeds `Hash::update`: feed bytes into the context. -/
def Hash.update : Hash → List Nat → Hash
  | .FixedSize pr data, d => .FixedSize pr (data ++ d)
  | .Shake128 data len, d => .Shake128 (data ++ d) len
  | .Shake256 data len, d => .Shake256 (data ++ d) len

/-- Embeds `Hash::digest_and_drop`: finalize a fixed context to its full output,
or squeeze `output_length.unwrap_or(16)` (resp. 32) bytes from a SHAKE
context — the defaults align with Node.js. -/
def Hash.digest_and_drop : Hash → List Nat
  | .FixedSize pr data => pr.finalize data
  | .Shake128 data len => shakeBytes 100 data (len.getD 16)
  | .Shake256 data len => shakeBytes 200 data (len.getD 32)

/-- Embeds `Hash::clone_hash(output_length)`: deep-copy the context; a fixed
context rejects any requested length other than its `output_size()`, a
SHAKE context stores the clone call's requested length in place of the
original's. -/
def Hash.clone_hash : Hash → Option Nat → Except HashError Hash
  | .FixedSize pr data, some length =>
    if length = pr.output_size then .ok (.FixedSize pr data)
    else .error .OutputLengthMismatch
  | .FixedSize pr data, none => .ok (.FixedSize pr data)
  | .Shake128 data _, len => .ok (.Shake128 data len)
  | .Shake256 data _, len => .ok (.Shake256 data len)

/-- Embeds `Hash::get_hashes()`: the advertised algorithm names, in source
order. -/
def Hash.get_hashes : List String :=
  [ "RSA-MD4", "RSA-MD5", "RSA-RIPEMD160", "RSA-SHA1", "RSA-SHA1-2",
    "RSA-SHA224", "RSA-SHA256", "RSA-SHA3-224", "RSA-SHA3-256",
    "RSA-SHA3-384", "RSA-SHA3-512", "RSA-SHA384", "RSA-SHA512",
    "RSA-SHA512/224", "RSA-SHA512/256", "RSA-SM3", "blake2b512",
    "blake2s256", "id-rsassa-pkcs1-v1_5-with-sha3-224",
    "id-rsassa-pkcs1-v1_5-with-sha3-256",
    "id-rsassa-pkcs1-v1_5-with-sha3-384",
    "id-rsassa-pkcs1-v1_5-with-sha3-512", "md4", "md4WithRSAEncryption",
    "md5", "md5-sha1", "md5WithRSAEncryption", "ripemd", "ripemd160",
    "ripemd160WithRSA", "rmd160", "sha1", "sha1WithRSAEncryption",
    "sha224", "sha224WithRSAEncryption", "sha256",
    "sha256WithRSAEncryption", "sha3-224", "sha3-256", "sha3-384",
    "sha3-512", "sha384", "sha384WithRSAEncryption", "sha512",
    "sha512-224", "sha512-224WithRSAEncryption", "sha512-256",
    "sha512-256WithRSAEncryption", "sha512WithRSAEncryption", "shake128",
    "shake256", "sm3", "sm3WithRSAEncryption", "ssl3-md5", "ssl3-sha1" ]

/-- Embeds `Hash::get_size(algorithm_name)`: the fixed output size table;
`none` for the variable-length SHAKEs and for unknown names. -/
def Hash.get_size (algorithm_name : String) : Option Nat :=
  match algorithm_name with
  | "RSA-MD4" => some 16
  | "RSA-MD5" => some 16
  | "RSA-RIPEMD160" => some 20
  | "RSA-SHA1" => some 20
  | "RSA-SHA1-2" => some 20
  | "RSA-SHA224" => some 28
  | "RSA-SHA256" => some 32
  | "RSA-SHA3-224" => some 28
  | "RSA-SHA3-256" => some 32
  | "RSA-SHA3-384" => some 48
  | "RSA-SHA3-512" => some 64
  | "RSA-SHA384" => some 48
  | "RSA-SHA512" => some 64
  | "RSA-SHA512/224" => some 28
  | "RSA-SHA512/256" => some 32
  | "RSA-SM3" => some 32
  | "blake2b512" => some 64
  | "blake2s256" => some 32
  | "id-rsassa-pkcs1-v1_5-with-sha3-224" => some 28
  | "id-rsassa-pkcs1-v1_5-with-sha3-256" => some 32
  | "id-rsassa-pkcs1-v1_5-with-sha3-384" => some 48
  | "id-rsassa-pkcs1-v1_5-with-sha3-512" => some 64
  | "md4" => some 16
  | "md4WithRSAEncryption" => some 16
  | "md5" => some 16
  | "md5-sha1" => some 20
  | "md5WithRSAEncryption" => some 16
  | "ripemd" => some 20
  | "ripemd160" => some 20
  | "ripemd160WithRSA" => some 20
  | "rmd160" => some 20
  | "sha1" => some 20
  | "sha1WithRSAEncryption" => some 20
  | "sha224" => some 28
  | "sha224WithRSAEncryption" => some 28
  | "sha256" => some 32
  | "sha256WithRSAEncryption" => some 32
  | "sha3-224" => some 28
  | "sha3-256" => some 32
  | "sha3-384" => some 48
  | "sha3-512" => some 64
  | "sha384" => some 48
  | "sha384WithRSAEncryption" => some 48
  | "sha512" => some 64
  | "sha512-224" => some 28
  | "sha512-224WithRSAEncryption" => some 28
  | "sha512-256" => some 32
  | "sha512-256WithRSAEncryption" => some 32
  | "sha512WithRSAEncryption" => some 64
  | "shake128" => none
  | "shake256" => none
  | "sm3" => some 32
  | "sm3WithRSAEncryption" => some 32
  | "ssl3-md5" => some 16
  | "ssl3-sha1" => some 20
  | _ => none

/-- The `Hasher` wrapper holds `Rc<RefCell<Option<Hash>>>`; its state is
the cell's content. `none` is the consumed state after `digest` took the
hash. -/
def HasherState : Type := Option Hash

/-- Embeds `Hasher::new`: resolve and wrap in a live cell. -/
def Hasher.new (algorithm : String) (output_length : Option Nat) :
    Except HashError HasherState :=
  (Hash.new algorithm output_length).map some

/-- Embeds `Hasher::update`: mutates the cell content in place when live and
returns `true`; returns `false` without touching anything when the hash
was already taken. Result: (returned bool, state after the call). -/
def Hasher.update (s : HasherState) (data : List Nat) :
    Bool × HasherState :=
  match s with
  | some h => (true, some (h.update data))
  | none => (false, none)

/-- Embeds `Hasher::digest`: take the cell content; the first call on a live
handle returns the digest and leaves the cell empty, later calls find the
cell empty and return `none`. Result: (returned bytes, state after the
call). -/
def Hasher.digest (s : HasherState) : Option (List Nat) × HasherState :=
  match s with
  | some h => (some h.digest_and_drop, none)
  | none => (none, none)

/-- Embeds `Hasher::clone_inner(output_length)`: only borrows the cell, so the
second component (the state of `self` after the call) is always the input
state; an empty cell yields `Ok(None)`, otherwise `clone_hash` and wrap
its result in a fresh live cell. -/
def Hasher.clone_inner (s : HasherState) (output_length : Option Nat) :
    Except HashError (Option HasherState) × HasherState :=
  match s with
  | none => (.ok none, none)
  | some h =>
    match h.clone_hash output_length with
    | .ok h2 => (.ok (some (some h2)), some h)
    | .error e => (.error e, some h)

/-! ### Helper definitions and lemmas -/

/-- ASCII lowercasing of an algorithm name, character by character; the
host binding lowercases names before resolving them. -/
def asciiLowerChar (c : Char) : Char :=
  if 'A' ≤ c ∧ c ≤ 'Z' then Char.ofNat (c.toNat + 32) else c

/-- ASCII lowercasing of a string. -/
def asciiLower (s : String) : String :=
  ⟨s.data.map asciiLowerChar⟩

/-- Boolean form of the per-name resolution-and-length check used for the
registry-wide property. -/
def checkName (name : String) : Bool :=
  match Hash.new (asciiLower name) none with
  | .ok h =>
    match Hash.get_size name with
    | some n => h.digest_and_drop.length = n
    | none => decide (0 < h.digest_and_drop.length)
  | .error _ => false

theorem Primitive.length_digest (p : Primitive) (data : List Nat) :
    (p.digest data).length = p.output_size := by
  simp [Primitive.digest]

theorem shakeBytes_length (seed : Nat) (data : List Nat) (n : Nat) :
    (shakeBytes seed data n).length = n := by
  simp [shakeBytes]

theorem Hash.update_update (h : Hash) (x y : List Nat) :
    (h.update x).update y = h.update (x ++ y) := by
  cases h <;> simp [Hash.update]

/-! ### Claims -/

set_option maxRecDepth 8000

/-- Claim C1, as stated, is false: `"RSA-MD4"` is in the sequence returned
by `Hash::get_hashes`, yet `Hash::new("RSA-MD4", None)` fails with
`DigestMethodUnsupported` because the constructor matches names
case-sensitively against lowercase alias patterns. -/
theorem C1_counterexample :
    "RSA-MD4" ∈ Hash.get_hashes ∧
    Hash.new "RSA-MD4" none =
      .error (.DigestMethodUnsupported "RSA-MD4") := by
  exact ⟨by decide, rfl⟩

/-- Claim C1 amended: for every name in `Hash::get_hashes`, resolving the
ASCII-lowercased form of that name with no requested length succeeds, and
finalizing the resulting handle yields exactly `Hash::get_size(name)`
bytes when that is `some n`, and a positive number of bytes (the
variable-length default) when it is `none`. -/
theorem C1_lowercased_names_resolve :
    ∀ name ∈ Hash.get_hashes, ∃ h,
      Hash.new (asciiLower name) none = .ok h ∧
      (Hash.get_size name).elim (0 < h.digest_and_drop.length)
        (fun n => h.digest_and_drop.length = n) := by
  intro name hmem
  have hall : Hash.get_hashes.all checkName = true := by decide
  have hc : checkName name = true := List.all_eq_true.mp hall name hmem
  unfold checkName at hc
  cases hnew : Hash.new (asciiLower name) none with
  | ok h =>
    refine ⟨h, rfl, ?_⟩
    rw [hnew] at hc
    cases hsz : Hash.get_size name with
    | some n => rw [hsz] at hc; simpa using hc
    | none => rw [hsz] at hc; simpa using hc
  | error e => rw [hnew] at hc; simp at hc

/-- Witness for the amended claim C1 at the concrete name `"sha256"`. -/
theorem C1_witness :
    ∃ h, Hash.new (asciiLower "sha256") none = .ok h ∧
      (Hash.get_size "sha256").elim (0 < h.digest_and_drop.length)
        (fun n => h.digest_and_drop.length = n) :=
  C1_lowercased_names_resolve "sha256" (by decide)

/-- Claim C2: for every algorithm name that resolves to a fixed-output
digest with `output_size()` equal to `n`: construction with requested
length `some n` succeeds, construction with `some m` for `m ≠ n` fails
with `OutputLengthMismatch`, and the same validation applies when cloning
a fixed-size handle with a requested length. -/
theorem C2_fixed_length_validation (name : String) (pr : Provider)
    (hres : Hash.new name none = .ok (.FixedSize pr [])) :
    Hash.new name (some pr.output_size) = .ok (.FixedSize pr []) ∧
    (∀ m, m ≠ pr.output_size →
      Hash.new name (some m) = .error .OutputLengthMismatch) ∧
    (∀ data, (Hash.FixedSize pr data).clone_hash (some pr.output_size) =
      .ok (.FixedSize pr data)) ∧
    (∀ data m, m ≠ pr.output_size →
      (Hash.FixedSize pr data).clone_hash (some m) =
        .error .OutputLengthMismatch) := by
  refine ⟨?_, ?_, fun data => by simp [Hash.clone_hash],
    fun data m hm => by simp [Hash.clone_hash, hm]⟩ <;>
    unfold Hash.new at hres ⊢ <;>
    cases hr : resolveName name <;> simp [hr, checkFixed] at hres ⊢
  · subst hres; simp
  · subst hres; intro m hm; simp [hm]

/-- Witness for claim C2 at the concrete name `"sha256"` (ring provider,
output size 32), rejected length 31, clone of a handle that has absorbed
the byte 7. -/
theorem C2_witness :
    Hash.new "sha256" (some 32) = .ok (.FixedSize .ringSha256 []) ∧
    Hash.new "sha256" (some 31) = .error .OutputLengthMismatch ∧
    (Hash.FixedSize .ringSha256 [7]).clone_hash (some 31) =
      .error .OutputLengthMismatch := by
  have h := C2_fixed_length_validation "sha256" .ringSha256 rfl
  exact ⟨h.1, h.2.1 31 (by decide), h.2.2.2 [7] 31 (by decide)⟩

/-- Claim C3: the first `Hasher::digest` on a live handle returns the
digest bytes and empties the cell; on an emptied (consumed) cell, digest
returns `none`, update returns `false` (the `AlreadyFinalized` signal),
and no operation (update, digest, clone) refills the cell. -/
theorem C3_single_consumption :
    ∀ (h : Hash) (d : List Nat) (len : Option Nat),
      Hasher.digest (some h) = (some h.digest_and_drop, none) ∧
      Hasher.digest (none : HasherState) = (none, none) ∧
      Hasher.update (none : HasherState) d = (false, none) ∧
      (Hasher.update (none : HasherState) d).2 = none ∧
      (Hasher.digest (none : HasherState)).2 = none ∧
      (Hasher.clone_inner (none : HasherState) len).2 = none := by
  intro h d len
  exact ⟨rfl, rfl, rfl, rfl, rfl, rfl⟩

/-- Claim C4: clone independence — for a freshly resolved handle, after
absorbing `a`, cloning with no requested length, then absorbing `b` into
the original and `c` into the clone, the original finalizes to the digest
of `a ++ b` and the clone to the digest of `a ++ c`; post-clone updates
never cross handles. -/
theorem C4_clone_independence (name : String) (h0 hc : Hash)
    (a b c : List Nat)
    (hres : Hash.new name none = .ok h0)
    (hclone : (h0.update a).clone_hash none = .ok hc) :
    ((h0.update a).update b).digest_and_drop =
      (h0.update (a ++ b)).digest_and_drop ∧
    (hc.update c).digest_and_drop =
      (h0.update (a ++ c)).digest_and_drop := by
  unfold Hash.new at hres
  cases hr : resolveName name <;> simp [hr, checkFixed] at hres <;>
    subst hres <;>
    simp [Hash.update, Hash.clone_hash] at hclone <;>
    subst hclone <;>
    simp [Hash.update, Hash.digest_and_drop]

/-- Witness for claim C4: `"sha256"`, `a = [1]`, `b = [2]`, `c = [3]`. -/
theorem C4_witness :
    (((Hash.FixedSize .ringSha256 []).update [1]).update [2]).digest_and_drop =
      ((Hash.FixedSize .ringSha256 []).update ([1] ++ [2])).digest_and_drop ∧
    ((Hash.FixedSize .ringSha256 [1]).update [3]).digest_and_drop =
      ((Hash.FixedSize .ringSha256 []).update ([1] ++ [3])).digest_and_drop :=
  C4_clone_independence "sha256" (.FixedSize .ringSha256 [])
    (.FixedSize .ringSha256 [1]) [1] [2] [3] rfl rfl

/-- Claim C5: finalize output lengths — a fixed-size handle yields exactly
`output_size()` bytes; a SHAKE128 handle yields exactly the stored
requested length, else 16 bytes; a SHAKE256 handle yields exactly the
stored requested length, else 32 bytes. -/
theorem C5_output_lengths :
    ∀ (pr : Provider) (data : List Nat) (L : Nat),
      ((Hash.FixedSize pr data).digest_and_drop).length = pr.output_size ∧
      ((Hash.Shake128 data (some L)).digest_and_drop).length = L ∧
      ((Hash.Shake128 data none).digest_and_drop).length = 16 ∧
      ((Hash.Shake256 data (some L)).digest_and_drop).length = L ∧
      ((Hash.Shake256 data none).digest_and_drop).length = 32 := by
  intro pr data L
  simp [Hash.digest_and_drop, Provider.finalize, Provider.output_size,
    Primitive.length_digest, shakeBytes_length]

/-- Claim C6: cloning an already-consumed handle returns `Ok(None)` for
every requested output length — the absent-handle outcome, which is
distinguishable from the `OutputLengthMismatch` failure. -/
theorem C6_clone_consumed_absent :
    ∀ (h : Hash) (len : Option Nat),
      Hasher.clone_inner (none : HasherState) len = (.ok none, none) ∧
      (Hasher.clone_inner (Hasher.digest (some h)).2 len).1 = .ok none ∧
      (.ok none : Except HashError (Option HasherState)) ≠
        .error .OutputLengthMismatch := by
  intro h len
  exact ⟨rfl, rfl, by simp⟩

/-- Claim C7: error atomicity — `Hasher::clone_inner` only borrows the
handle, so the handle state after any clone call (successful or failed)
equals the state before it, a subsequent digest is unaffected, and the
only failing update (on a consumed handle) also leaves the state
unchanged. -/
theorem C7_error_atomicity :
    ∀ (s : HasherState) (len : Option Nat) (d : List Nat),
      (Hasher.clone_inner s len).2 = s ∧
      Hasher.digest (Hasher.clone_inner s len).2 = Hasher.digest s ∧
      Hasher.update (none : HasherState) d = (false, none) := by
  intro s len d
  have h1 : (Hasher.clone_inner s len).2 = s := by
    cases s with
    | none => rfl
    | some h =>
      cases hcl : h.clone_hash len <;>
        simp [Hasher.clone_inner, hcl]
  exact ⟨h1, by rw [h1], rfl⟩

/-- Claim C8: provider equivalence — `"sha256"` routes to the ring-backed
provider and `"sha256withrsaencryption"` to the generic sha2 provider
(likewise for sha512), yet for every input the two handles finalize to
identical bytes: the provider split is not observable in output. -/
theorem C8_provider_equivalence :
    ∀ data : List Nat,
      Hash.new "sha256" none = .ok (.FixedSize .ringSha256 []) ∧
      Hash.new "sha256withrsaencryption" none =
        .ok (.FixedSize (.generic .sha256) []) ∧
      ((Hash.FixedSize .ringSha256 []).update data).digest_and_drop =
        ((Hash.FixedSize (.generic .sha256) []).update data).digest_and_drop ∧
      Hash.new "sha512" none = .ok (.FixedSize .ringSha512 []) ∧
      Hash.new "sha512withrsaencryption" none =
        .ok (.FixedSize (.generic .sha512) []) ∧
      ((Hash.FixedSize .ringSha512 []).update data).digest_and_drop =
        ((Hash.FixedSize (.generic .sha512) []).update data).digest_and_drop := by
  intro data
  exact ⟨rfl, rfl, rfl, rfl, rfl, rfl⟩

/-- Claim C9: `Hash::new` accepts the hyphenated aliases `"shake-128"` and
`"shake-256"`, although neither appears in `Hash::get_hashes` and
`Hash::get_size` returns `none` for them exactly as for an unknown
name. -/
theorem C9_hyphenated_shake_aliases :
    ∀ len : Option Nat,
      Hash.new "shake-128" len = .ok (.Shake128 [] len) ∧
      Hash.new "shake-256" len = .ok (.Shake256 [] len) ∧
      "shake-128" ∉ Hash.get_hashes ∧
      "shake-256" ∉ Hash.get_hashes ∧
      Hash.get_size "shake-128" = none ∧
      Hash.get_size "shake-256" = none ∧
      Hash.get_size "not-a-hash" = none := by
  intro len
  exact ⟨rfl, rfl, by decide, by decide, rfl, rfl, rfl⟩

/-- Claim C10: cloning a SHAKE handle stores the clone call argument in
place of the original requested length — cloning a handle built with
`some L` using `None` yields a clone that finalizes to the default length
(16 bytes for SHAKE128, 32 for SHAKE256), not `L`. -/
theorem C10_clone_resets_shake_length :
    ∀ (data : List Nat) (L : Nat) (len2 : Option Nat),
      (Hash.Shake128 data (some L)).clone_hash len2 =
        .ok (.Shake128 data len2) ∧
      (Hash.Shake256 data (some L)).clone_hash len2 =
        .ok (.Shake256 data len2) ∧
      (((Hash.Shake128 data (some L)).clone_hash none).map
        (fun h => h.digest_and_drop.length)) = .ok 16 ∧
      (((Hash.Shake256 data (some L)).clone_hash none).map
        (fun h => h.digest_and_drop.length)) = .ok 32 := by
  intro data L len2
  refine ⟨rfl, rfl, ?_, ?_⟩ <;>
    simp [Hash.clone_hash, Hash.digest_and_drop, shakeBytes_length,
      Except.map]

end DigestRs
